import Mathlib

/-!
Verification of the Black-Hole-Simulator core against its specification.

The embedding below translates the core of `src/components/BlackHoleCanvas.tsx`
together with the simulation constants of `src/constants` (`src/unnamed/part_000`)
and the data model of `src/types.ts` into Lean.  JavaScript `number` arithmetic
is modelled over `ℝ`; `Math.sqrt` becomes `Real.sqrt`.  In the one place the
source relies on JavaScript truthiness of a division (`p.x / r || 1` inside the
degenerate lensing branch) the embedding uses an explicit zero test, which under
Lean's `0/0 = 0` convention coincides with the JavaScript behaviour on the
reachable inputs (`r ≥ 0`, and `r = 0` forces `p.x = 0`, so the division is
`NaN`, i.e. falsy, exactly when the Lean value is `0`).
-/

namespace BlackHoleSim

/-- 2D vector, from `src/types.ts` (`Vector2`). -/
@[ext]
structure Vector2 where
  x : ℝ
  y : ℝ

/-- Body kinds, from `src/types.ts` (`CelestialType`).  The spec calls
`GAS_CLOUD` "Debris": the terminal state of a captured body. -/
inductive CelestialType where
  | STAR
  | PLANET
  | COMET
  | GAS_CLOUD
deriving DecidableEq

/-- Moving body, from `src/types.ts` (`CelestialObject`). -/
@[ext]
structure CelestialObject where
  id : String
  type : CelestialType
  pos : Vector2
  vel : Vector2
  mass : ℝ
  radius : ℝ
  color : String
  trail : List Vector2

/-- Gravitational constant, from `src/constants`. -/
def G : ℝ := 1000

/-- Schwarzschild-radius visual scale factor, from `src/constants`. -/
def RS_FACTOR : ℝ := 1.5

/-- Trail capacity constant, from `src/constants`.  (Note: the integrator in
`BlackHoleCanvas.tsx` does not reference this constant; it hardcodes `200`.) -/
def MAX_TRAIL_LENGTH : ℕ := 100

/-- Minimum zoom, from `src/constants`. -/
def MIN_ZOOM : ℝ := 0.1

/-- Maximum zoom, from `src/constants`. -/
def MAX_ZOOM : ℝ := 5.0

/-- Result record of `calculateLensing` (`{pos, mag, pos2, mag2}`). -/
@[ext]
structure LensResult where
  pos : Vector2
  mag : ℝ
  pos2 : Option Vector2
  mag2 : ℝ

/-- The lensing transform, translated from `calculateLensing` in
`src/components/BlackHoleCanvas.tsx` lines 8–61. -/
noncomputable def calculateLensing (p : Vector2) (mass : ℝ) (showLensing : Bool) :
    LensResult :=
  if showLensing = false then { pos := p, mag := 1, pos2 := none, mag2 := 0 }
  else
    let re := Real.sqrt (4 * G * mass)
    let reSq := re * re
    let rSq := p.x * p.x + p.y * p.y
    let r := Real.sqrt rSq
    if r < 0.001 then
      -- JS: `(p.x / r || 1) * re` and `(p.y / r || 0) * re`
      { pos := { x := (if p.x / r = 0 then 1 else p.x / r) * re,
                 y := (if p.y / r = 0 then 0 else p.y / r) * re },
        mag := 1.0,
        pos2 := none,
        mag2 := 0 }
    else
      let u := r / re
      let uSq := u * u
      let root := Real.sqrt (uSq + 4)
      let A := (uSq + 2) / (2 * u * root)
      let mag1 := min (A + 0.5) 8.0
      let mag2 := min (A - 0.5) 8.0
      let theta1 := (r + Real.sqrt (rSq + 4 * reSq)) / 2
      let scale1 := theta1 / r
      let theta2 := (r - Real.sqrt (rSq + 4 * reSq)) / 2
      let scale2 := theta2 / r
      { pos := { x := p.x * scale1, y := p.y * scale1 },
        mag := mag1,
        pos2 := some { x := p.x * scale2, y := p.y * scale2 },
        mag2 := mag2 }

/-- One integration step for a single body: the body of the `map` inside
`updatePhysics` (`src/components/BlackHoleCanvas.tsx` lines 225–258), with
`dt = 0.016 * timeScale` and `rs = blackHoleMass * RS_FACTOR` hoisted exactly
as in the source (lines 222–223). -/
noncomputable def stepBody (blackHoleMass timeScale : ℝ) (obj : CelestialObject) :
    CelestialObject :=
  let dt := 0.016 * timeScale
  let rs := blackHoleMass * RS_FACTOR
  let distSq := obj.pos.x * obj.pos.x + obj.pos.y * obj.pos.y
  let dist := Real.sqrt distSq
  if dist < rs then
    { obj with type := CelestialType.GAS_CLOUD, radius := 0, mass := 0 }
  else
    let forceMag := G * blackHoleMass / distSq
    let acc : Vector2 :=
      { x := -forceMag * (obj.pos.x / dist), y := -forceMag * (obj.pos.y / dist) }
    let newVel : Vector2 :=
      { x := obj.vel.x + acc.x * dt, y := obj.vel.y + acc.y * dt }
    let newPos : Vector2 :=
      { x := obj.pos.x + newVel.x * dt, y := obj.pos.y + newVel.y * dt }
    let newTrail0 := obj.trail ++ [obj.pos]
    let newTrail := if newTrail0.length > 200 then newTrail0.tail else newTrail0
    { obj with pos := newPos, vel := newVel, trail := newTrail }

/-- One full integrator call over the active set: the `setObjects` body of
`updatePhysics` (`src/components/BlackHoleCanvas.tsx` lines 221–260):
map `stepBody` over all bodies, then `filter(o => o.mass > 0)`. -/
noncomputable def updatePhysics (blackHoleMass timeScale : ℝ)
    (objs : List CelestialObject) : List CelestialObject :=
  (objs.map (stepBody blackHoleMass timeScale)).filter (fun o => 0 < o.mass)

/-- Distance of a body from the attractor at the origin, as computed in
`updatePhysics` (`dist = Math.sqrt(pos.x² + pos.y²)`). -/
noncomputable def distOf (obj : CelestialObject) : ℝ :=
  Real.sqrt (obj.pos.x * obj.pos.x + obj.pos.y * obj.pos.y)

/-- Viewport state, from `src/types.ts` (`ViewportState`). -/
@[ext]
structure ViewportState where
  offset : Vector2
  zoom : ℝ
  rotation : ℝ

/-- World-to-screen affine map, from `toScreen` in
`src/components/BlackHoleCanvas.tsx` lines 290–293. -/
noncomputable def toScreen (v : Vector2) (viewport : ViewportState) (c : Vector2) : Vector2 :=
  { x := c.x + (v.x + viewport.offset.x) * viewport.zoom,
    y := c.y + (v.y + viewport.offset.y) * viewport.zoom }

/-- Modelled from the spec: `toWorld`, the screen-to-world inverse required of
the external hit-testing/picking collaborator (spec §4.3).  It is not present
in `src/`; per the spec it "must be the exact algebraic inverse" of
`toScreen`. -/
noncomputable def toWorld (s : Vector2) (viewport : ViewportState) (c : Vector2) : Vector2 :=
  { x := (s.x - c.x) / viewport.zoom - viewport.offset.x,
    y := (s.y - c.y) / viewport.zoom - viewport.offset.y }

end BlackHoleSim

namespace BlackHoleSim

/-! ### Shared evaluation lemmas and concrete bodies -/

theorem sqrt_90000 : Real.sqrt 90000 = 300 := by
  rw [show (90000 : ℝ) = 300 ^ 2 by norm_num, Real.sqrt_sq (by norm_num : (0:ℝ) ≤ 300)]

theorem sqrt_40000 : Real.sqrt 40000 = 200 := by
  rw [show (40000 : ℝ) = 200 ^ 2 by norm_num, Real.sqrt_sq (by norm_num : (0:ℝ) ≤ 200)]

theorem sqrt_quarter_millionth : Real.sqrt 0.00000025 = 0.0005 := by
  rw [show (0.00000025 : ℝ) = 0.0005 ^ 2 by norm_num,
    Real.sqrt_sq (by norm_num : (0:ℝ) ≤ 0.0005)]

/-- The first body of `INITIAL_OBJECTS` in `src/constants`: a star on an
approximately circular orbit at `(300, 0)` with velocity `(0, 15)`.  This is
exactly the body of the spec's end-to-end scenario. -/
noncomputable def initialStar : CelestialObject :=
  { id := "star-1", type := CelestialType.STAR, pos := { x := 300, y := 0 },
    vel := { x := 0, y := 15 }, mass := 10, radius := 12, color := "#fbbf24",
    trail := [] }

/-- A comet placed inside the horizon of a mass-10 attractor
(`horizonRadius = 10 * RS_FACTOR = 15 > 1`). -/
noncomputable def nearBody : CelestialObject :=
  { id := "comet-close", type := CelestialType.COMET, pos := { x := 1, y := 0 },
    vel := { x := 0, y := 0 }, mass := 0.5, radius := 3, color := "#60a5fa",
    trail := [] }

/-- `initialStar` carrying a trail of exactly `MAX_TRAIL_LENGTH = 100` past
positions. -/
noncomputable def body100 : CelestialObject :=
  { initialStar with trail := List.replicate 100 { x := 0, y := 0 } }

theorem distOf_initialStar : distOf initialStar = 300 := by
  simp only [distOf, initialStar]
  rw [show (300:ℝ) * 300 + 0 * 0 = 90000 by norm_num, sqrt_90000]

theorem distOf_nearBody : distOf nearBody = 1 := by
  simp only [distOf, nearBody]
  rw [show (1:ℝ) * 1 + 0 * 0 = 1 by norm_num, Real.sqrt_one]

/-! ### C1: capture at the horizon -/

/-- Claim C1: a body whose distance from the origin is below
`horizonRadius = mass * RS_FACTOR` at the start of a step is transitioned to
Debris (the source's `GAS_CLOUD` kind) with `mass = 0` and `radius = 0`, its
velocity/position (and trail) are left untouched — the force, velocity and
position updates are skipped — and, since every body in any active set
returned by `updatePhysics` has strictly positive mass, the captured body is
absent from every subsequently returned active set and is never integrated
again. -/
theorem capture_transitions_to_debris_and_removed (m ts : ℝ) (obj : CelestialObject)
    (objs : List CelestialObject) (h : distOf obj < m * RS_FACTOR) :
    stepBody m ts obj
        = { obj with type := CelestialType.GAS_CLOUD, radius := 0, mass := 0 } ∧
    (∀ b ∈ updatePhysics m ts objs, 0 < b.mass) ∧
    stepBody m ts obj ∉ updatePhysics m ts objs := by
  have hstep : stepBody m ts obj
      = { obj with type := CelestialType.GAS_CLOUD, radius := 0, mass := 0 } := by
    rw [stepBody]
    simp only [distOf] at h
    rw [if_pos h]
  have hpos : ∀ b ∈ updatePhysics m ts objs, 0 < b.mass := by
    intro b hb
    simp only [updatePhysics, List.mem_filter, decide_eq_true_eq] at hb
    exact hb.2
  refine ⟨hstep, hpos, fun hmem => ?_⟩
  have := hpos _ hmem
  rw [hstep] at this
  simp at this

/-- Witness for C1 at a concrete captured body. -/
theorem capture_transitions_to_debris_and_removed_witness :
    distOf nearBody < 10 * RS_FACTOR ∧
    (stepBody 10 1 nearBody
        = { nearBody with type := CelestialType.GAS_CLOUD, radius := 0, mass := 0 } ∧
     (∀ b ∈ updatePhysics 10 1 [nearBody], 0 < b.mass) ∧
     stepBody 10 1 nearBody ∉ updatePhysics 10 1 [nearBody]) := by
  have h : distOf nearBody < 10 * RS_FACTOR := by
    rw [distOf_nearBody]; norm_num [RS_FACTOR]
  exact ⟨h, capture_transitions_to_debris_and_removed 10 1 nearBody [nearBody] h⟩

/-! ### C2: semi-implicit Euler step -/

/-- Claim C2: for a non-captured body, one integrator step uses `dt = 0.016 * ts`,
force `F = G * m / r²`, acceleration `a = -F * (position / r)`, and the
semi-implicit Euler update `velocity' = velocity + a*dt` followed by
`position' = position + velocity'*dt` (the updated velocity drives the
position update); concretely, the end-to-end scenario (`attractorMass = 10`,
`pos = (300, 0)`, `vel = (0, 15)`, `G = 1000`, `dt = 0.016`,
`timeScale = 1.0`, i.e. `initialStar`) yields `vel' ≈ (-0.001778, 15)` and
`pos' ≈ (299.99997, 0.24)` within `1e-4`. -/
theorem semi_implicit_euler_step (m ts : ℝ) (obj : CelestialObject)
    (h : ¬ distOf obj < m * RS_FACTOR) :
    ((stepBody m ts obj).vel.x
        = obj.vel.x + -(G * m / (obj.pos.x * obj.pos.x + obj.pos.y * obj.pos.y))
            * (obj.pos.x / distOf obj) * (0.016 * ts) ∧
     (stepBody m ts obj).vel.y
        = obj.vel.y + -(G * m / (obj.pos.x * obj.pos.x + obj.pos.y * obj.pos.y))
            * (obj.pos.y / distOf obj) * (0.016 * ts) ∧
     (stepBody m ts obj).pos.x = obj.pos.x + (stepBody m ts obj).vel.x * (0.016 * ts) ∧
     (stepBody m ts obj).pos.y = obj.pos.y + (stepBody m ts obj).vel.y * (0.016 * ts)) ∧
    (|(stepBody 10 1 initialStar).vel.x - (-0.001778)| < 1e-4 ∧
     |(stepBody 10 1 initialStar).vel.y - 15| < 1e-4 ∧
     |(stepBody 10 1 initialStar).pos.x - 299.99997| < 1e-4 ∧
     |(stepBody 10 1 initialStar).pos.y - 0.24| < 1e-4) := by
  constructor
  · rw [stepBody]
    simp only [distOf] at h ⊢
    rw [if_neg h]
    refine ⟨by simp, by simp, by simp, by simp⟩
  · rw [stepBody]
    simp only [initialStar]
    norm_num [sqrt_90000, RS_FACTOR, G, abs_lt]

/-- Witness for C2 at the spec's end-to-end scenario body. -/
theorem semi_implicit_euler_step_witness :
    ¬ distOf initialStar < 10 * RS_FACTOR ∧
    (((stepBody 10 1 initialStar).vel.x
        = initialStar.vel.x
          + -(G * 10 / (initialStar.pos.x * initialStar.pos.x
              + initialStar.pos.y * initialStar.pos.y))
            * (initialStar.pos.x / distOf initialStar) * (0.016 * 1) ∧
      (stepBody 10 1 initialStar).vel.y
        = initialStar.vel.y
          + -(G * 10 / (initialStar.pos.x * initialStar.pos.x
              + initialStar.pos.y * initialStar.pos.y))
            * (initialStar.pos.y / distOf initialStar) * (0.016 * 1) ∧
      (stepBody 10 1 initialStar).pos.x
        = initialStar.pos.x + (stepBody 10 1 initialStar).vel.x * (0.016 * 1) ∧
      (stepBody 10 1 initialStar).pos.y
        = initialStar.pos.y + (stepBody 10 1 initialStar).vel.y * (0.016 * 1)) ∧
     (|(stepBody 10 1 initialStar).vel.x - (-0.001778)| < 1e-4 ∧
      |(stepBody 10 1 initialStar).vel.y - 15| < 1e-4 ∧
      |(stepBody 10 1 initialStar).pos.x - 299.99997| < 1e-4 ∧
      |(stepBody 10 1 initialStar).pos.y - 0.24| < 1e-4)) := by
  have h : ¬ distOf initialStar < 10 * RS_FACTOR := by
    rw [distOf_initialStar]; norm_num [RS_FACTOR]
  exact ⟨h, semi_implicit_euler_step 10 1 initialStar h⟩

end BlackHoleSim

namespace BlackHoleSim

/-! ### C3: trail bound -/

/-- Counterexample to C3 as stated: stepping a non-captured body whose trail
already holds `MAX_TRAIL_LENGTH = 100` entries yields a trail of 101 entries —
the integrator's actual cap is the hardcoded literal 200, not
`MAX_TRAIL_LENGTH`, so `trail.length` does exceed `MAX_TRAIL_LENGTH`. -/
theorem trail_exceeds_max_trail_length :
    (stepBody 10 1 body100).trail.length = 101 ∧
    MAX_TRAIL_LENGTH < (stepBody 10 1 body100).trail.length := by
  rw [stepBody]
  simp only [body100, initialStar]
  norm_num [sqrt_90000, RS_FACTOR, MAX_TRAIL_LENGTH]

/-- One step of a non-captured body keeps its trail length at most 200. -/
theorem stepBody_trail_le (m ts : ℝ) (obj : CelestialObject)
    (h : obj.trail.length ≤ 200) : (stepBody m ts obj).trail.length ≤ 200 := by
  rw [stepBody]
  split_ifs with h1
  · simpa using h
  · simp only []
    split_ifs with h2 <;> simp_all

/-- Claim C3 as amended: the integrator's trail cap is the hardcoded 200 (not the
`MAX_TRAIL_LENGTH = 100` constant): each non-captured step appends the body's
pre-update position and, exactly when the length then exceeds 200, discards the
oldest entry (FIFO); consequently `trail.length ≤ 200` is an invariant of any
number of integrator calls. -/
theorem trail_length_bounded_by_200 (m ts : ℝ) (obj : CelestialObject)
    (objs : List CelestialObject)
    (hobj : obj.trail.length ≤ 200) (h : ∀ o ∈ objs, o.trail.length ≤ 200) :
    (¬ distOf obj < m * RS_FACTOR →
       (stepBody m ts obj).trail
         = if (obj.trail ++ [obj.pos]).length > 200 then (obj.trail ++ [obj.pos]).tail
           else obj.trail ++ [obj.pos]) ∧
    (stepBody m ts obj).trail.length ≤ 200 ∧
    (∀ n, ∀ b ∈ (updatePhysics m ts)^[n] objs, b.trail.length ≤ 200) := by
  refine ⟨?_, stepBody_trail_le m ts obj hobj, ?_⟩
  · intro hcap
    rw [stepBody]
    simp only [distOf] at hcap
    rw [if_neg hcap]
  · intro n
    induction n generalizing objs with
    | zero => simpa using h
    | succ k ih =>
      rw [Function.iterate_succ_apply]
      refine ih _ ?_
      intro o ho
      simp only [updatePhysics, List.mem_filter, List.mem_map] at ho
      obtain ⟨⟨a, ha, rfl⟩, _⟩ := ho
      exact stepBody_trail_le m ts a (h a ha)

/-- Witness for the amended C3 at a concrete body and singleton active set. -/
theorem trail_length_bounded_by_200_witness :
    body100.trail.length ≤ 200 ∧ (∀ o ∈ [body100], o.trail.length ≤ 200) ∧
    ((¬ distOf body100 < 10 * RS_FACTOR →
        (stepBody 10 1 body100).trail
          = if (body100.trail ++ [body100.pos]).length > 200
            then (body100.trail ++ [body100.pos]).tail
            else body100.trail ++ [body100.pos]) ∧
     (stepBody 10 1 body100).trail.length ≤ 200 ∧
     (∀ n, ∀ b ∈ (updatePhysics 10 1)^[n] [body100], b.trail.length ≤ 200)) := by
  have h1 : body100.trail.length ≤ 200 := by simp [body100, initialStar]
  have h2 : ∀ o ∈ [body100], o.trail.length ≤ 200 := by
    intro o ho; rw [List.mem_singleton] at ho; rw [ho]; exact h1
  exact ⟨h1, h2, trail_length_bounded_by_200 10 1 body100 [body100] h1 h2⟩

/-! ### C4: disabled lensing is the identity -/

/-- Claim C4: with `lensingEnabled = false` the lens transform returns exactly the
input point as primary position (it is the very same value, no arithmetic is
applied to it), magnification 1, and no secondary image — for every input
point (the origin included) and every attractor mass. -/
theorem lensing_disabled_identity (p : Vector2) (mass : ℝ) :
    calculateLensing p mass false
      = { pos := p, mag := 1, pos2 := none, mag2 := 0 } := by
  simp [calculateLensing]

/-! ### C7: degenerate (near-center) lensing branch -/

/-- Claim C7 fails on the code: evaluation at the failing input `p = (0, 0.0005)`, `mass = 10`:
`r = 0.0005 < 0.001` takes the degenerate branch, whose JavaScript fallback
`(p.x / r || 1)` misfires (the quotient `0 / 0.0005 = 0` is falsy), producing
the primary position `(RE, RE) = (200, 200)` — at distance `200·√2` from the
origin, not at distance `RE = √(4·G·10) = 200` as the claim (and the code's
own comment "We map the point to RE") requires.  Magnification 1 and the
absence of a secondary image do hold. -/
theorem lensing_degenerate_axis_eval :
    (calculateLensing { x := 0, y := 0.0005 } 10 true).pos = { x := 200, y := 200 } ∧
    (calculateLensing { x := 0, y := 0.0005 } 10 true).mag = 1 ∧
    (calculateLensing { x := 0, y := 0.0005 } 10 true).pos2 = none ∧
    Real.sqrt (200 * 200 + 200 * 200) ≠ Real.sqrt (4 * G * 10) := by
  have heval : calculateLensing { x := 0, y := 0.0005 } 10 true
      = { pos := { x := 200, y := 200 }, mag := 1, pos2 := none, mag2 := 0 } := by
    simp only [calculateLensing]
    rw [show ((0:ℝ) * 0 + 0.0005 * 0.0005) = 0.00000025 by norm_num,
      sqrt_quarter_millionth, show ((4:ℝ) * G * 10) = 40000 by norm_num [G], sqrt_40000]
    norm_num
  refine ⟨by rw [heval], by rw [heval], by rw [heval], ?_⟩
  rw [show ((4:ℝ) * G * 10) = 40000 by norm_num [G], sqrt_40000]
  have hlt : Real.sqrt 40000 < Real.sqrt (200 * 200 + 200 * 200) :=
    Real.sqrt_lt_sqrt (by norm_num) (by norm_num)
  rw [sqrt_40000] at hlt
  linarith

end BlackHoleSim

namespace BlackHoleSim

/-! ### Lens-formula helpers (the named subterms of `calculateLensing`'s main
branch, used to state the lensing claims) -/

/-- Einstein radius `RE = sqrt(4 * G * mass)` (`BlackHoleCanvas.tsx` line 14). -/
noncomputable def einsteinRadius (mass : ℝ) : ℝ := Real.sqrt (4 * G * mass)

/-- `r = sqrt(p.x² + p.y²)` as computed by `calculateLensing` (lines 17–18). -/
noncomputable def lensR (p : Vector2) : ℝ := Real.sqrt (p.x * p.x + p.y * p.y)

/-- The combined magnification factor `A = (u² + 2) / (2u·sqrt(u² + 4))` with
`u = r / RE` (`BlackHoleCanvas.tsx` lines 33–40). -/
noncomputable def lensA (p : Vector2) (mass : ℝ) : ℝ :=
  let u := lensR p / einsteinRadius mass
  (u * u + 2) / (2 * u * Real.sqrt (u * u + 4))

/-- Primary image radius `theta1 = (r + sqrt(r² + 4·RE²)) / 2`
(`BlackHoleCanvas.tsx` line 47; `r²` is the cached `rSq`, `RE²` the cached
`reSq = re * re`). -/
noncomputable def lensTheta1 (p : Vector2) (mass : ℝ) : ℝ :=
  (lensR p + Real.sqrt ((p.x * p.x + p.y * p.y)
      + 4 * (einsteinRadius mass * einsteinRadius mass))) / 2

/-- Secondary image radius `theta2 = (r − sqrt(r² + 4·RE²)) / 2`
(`BlackHoleCanvas.tsx` line 52). -/
noncomputable def lensTheta2 (p : Vector2) (mass : ℝ) : ℝ :=
  (lensR p - Real.sqrt ((p.x * p.x + p.y * p.y)
      + 4 * (einsteinRadius mass * einsteinRadius mass))) / 2

/-- Unfolding of `calculateLensing`'s main (non-degenerate, lensing-enabled)
branch in terms of the named helpers. -/
theorem calculateLensing_main (p : Vector2) (mass : ℝ) (h : ¬ lensR p < 0.001) :
    calculateLensing p mass true
      = { pos := { x := p.x * (lensTheta1 p mass / lensR p),
                   y := p.y * (lensTheta1 p mass / lensR p) },
          mag := min (lensA p mass + 0.5) 8.0,
          pos2 := some { x := p.x * (lensTheta2 p mass / lensR p),
                         y := p.y * (lensTheta2 p mass / lensR p) },
          mag2 := min (lensA p mass - 0.5) 8.0 } := by
  simp only [lensR] at h
  simp only [calculateLensing, lensR, einsteinRadius, lensA, lensTheta1, lensTheta2]
  rw [if_neg (by simp : ¬(true = false)), if_neg h]

theorem sqrt_25 : Real.sqrt 25 = 5 := by
  rw [show (25 : ℝ) = 5 ^ 2 by norm_num, Real.sqrt_sq (by norm_num : (0:ℝ) ≤ 5)]

theorem lensR_three_four : lensR { x := 3, y := 4 } = 5 := by
  simp only [lensR]
  rw [show (3:ℝ) * 3 + 4 * 4 = 25 by norm_num, sqrt_25]

/-! ### C5: magnification split and cap -/

/-- Claim C5: with lensing enabled and `r` at or above the degeneracy epsilon
`0.001`, the transform returns primary magnification `min(A + 0.5, 8.0)` and
secondary magnification `min(A − 0.5, 8.0)`, where
`A = (u² + 2) / (2u·sqrt(u² + 4))` and `u = r / RE`, `RE = sqrt(4·G·mass)`
(see `lensA`). -/
theorem lensing_magnification_formula (p : Vector2) (mass : ℝ)
    (h : ¬ lensR p < 0.001) :
    (calculateLensing p mass true).mag = min (lensA p mass + 0.5) 8.0 ∧
    (calculateLensing p mass true).mag2 = min (lensA p mass - 0.5) 8.0 := by
  rw [calculateLensing_main p mass h]
  exact ⟨rfl, rfl⟩

/-- Witness for C5 at `p = (3, 4)` (so `r = 5 ≥ 0.001`), `mass = 10`. -/
theorem lensing_magnification_formula_witness :
    ¬ lensR { x := 3, y := 4 } < 0.001 ∧
    ((calculateLensing { x := 3, y := 4 } 10 true).mag
        = min (lensA { x := 3, y := 4 } 10 + 0.5) 8.0 ∧
     (calculateLensing { x := 3, y := 4 } 10 true).mag2
        = min (lensA { x := 3, y := 4 } 10 - 0.5) 8.0) := by
  have h : ¬ lensR { x := 3, y := 4 } < 0.001 := by
    rw [lensR_three_four]; norm_num
  exact ⟨h, lensing_magnification_formula { x := 3, y := 4 } 10 h⟩

/-! ### C6: the two image positions -/

/-- Claim C6: with lensing enabled, `r ≥ 0.001` and a positive attractor mass, both
images are always computed: the primary position is the input scaled by
`theta1 / r` with `theta1 = (r + sqrt(r² + 4·RE²))/2 > r` (same direction,
pushed outward), and the secondary position is the input scaled by
`theta2 / r` with `theta2 = (r − sqrt(r² + 4·RE²))/2 < 0` (opposite side of
the origin). -/
theorem lensing_image_positions (p : Vector2) (mass : ℝ)
    (h : ¬ lensR p < 0.001) (hm : 0 < mass) :
    (calculateLensing p mass true).pos
        = { x := p.x * (lensTheta1 p mass / lensR p),
            y := p.y * (lensTheta1 p mass / lensR p) } ∧
    (calculateLensing p mass true).pos2
        = some { x := p.x * (lensTheta2 p mass / lensR p),
                 y := p.y * (lensTheta2 p mass / lensR p) } ∧
    lensR p < lensTheta1 p mass ∧ lensTheta2 p mass < 0 := by
  have h0 : (0:ℝ) ≤ p.x * p.x + p.y * p.y :=
    add_nonneg (mul_self_nonneg _) (mul_self_nonneg _)
  have hre : 0 < einsteinRadius mass := by
    rw [einsteinRadius]
    exact Real.sqrt_pos.mpr (by norm_num [G]; linarith)
  have hrs : lensR p < Real.sqrt ((p.x * p.x + p.y * p.y)
      + 4 * (einsteinRadius mass * einsteinRadius mass)) := by
    rw [lensR]
    exact Real.sqrt_lt_sqrt h0 (by nlinarith)
  rw [calculateLensing_main p mass h]
  refine ⟨rfl, rfl, ?_, ?_⟩
  · rw [lensTheta1]; linarith
  · rw [lensTheta2]; linarith

/-- Witness for C6 at `p = (3, 4)`, `mass = 10`. -/
theorem lensing_image_positions_witness :
    (¬ lensR { x := 3, y := 4 } < 0.001 ∧ (0:ℝ) < 10) ∧
    ((calculateLensing { x := 3, y := 4 } 10 true).pos
        = { x := 3 * (lensTheta1 { x := 3, y := 4 } 10 / lensR { x := 3, y := 4 }),
            y := 4 * (lensTheta1 { x := 3, y := 4 } 10 / lensR { x := 3, y := 4 }) } ∧
     (calculateLensing { x := 3, y := 4 } 10 true).pos2
        = some { x := 3 * (lensTheta2 { x := 3, y := 4 } 10 / lensR { x := 3, y := 4 }),
                 y := 4 * (lensTheta2 { x := 3, y := 4 } 10 / lensR { x := 3, y := 4 }) } ∧
     lensR { x := 3, y := 4 } < lensTheta1 { x := 3, y := 4 } 10 ∧
     lensTheta2 { x := 3, y := 4 } 10 < 0) := by
  have h : ¬ lensR { x := 3, y := 4 } < 0.001 := by
    rw [lensR_three_four]; norm_num
  exact ⟨⟨h, by norm_num⟩,
    lensing_image_positions { x := 3, y := 4 } 10 h (by norm_num)⟩

/-! ### C9: viewport round trip -/

/-- Claim C9: `toScreen` is the pure affine map
`screen = screenCenter + (world + viewport.panOffset) * viewport.zoom` and,
for any zoom in `[MIN_ZOOM, MAX_ZOOM]`, the algebraic inverse `toWorld`
(modelled from the spec) satisfies the exact round trip
`toWorld (toScreen p vp c) vp c = p`. -/
theorem viewport_round_trip (p c : Vector2) (vp : ViewportState)
    (h1 : MIN_ZOOM ≤ vp.zoom) (h2 : vp.zoom ≤ MAX_ZOOM) :
    toScreen p vp c
      = { x := c.x + (p.x + vp.offset.x) * vp.zoom,
          y := c.y + (p.y + vp.offset.y) * vp.zoom } ∧
    toWorld (toScreen p vp c) vp c = p := by
  have hz : vp.zoom ≠ 0 := by
    rw [MIN_ZOOM] at h1; intro h; rw [h] at h1; norm_num at h1
  refine ⟨rfl, ?_⟩
  simp only [toScreen, toWorld]
  ext <;> field_simp

/-- Witness for C9 at concrete viewport data. -/
theorem viewport_round_trip_witness :
    (MIN_ZOOM ≤ (2:ℝ) ∧ (2:ℝ) ≤ MAX_ZOOM) ∧
    (toScreen { x := 7, y := -3 } { offset := { x := 4, y := 5 }, zoom := 2, rotation := 0 }
        { x := 100, y := 50 }
      = { x := 100 + (7 + 4) * 2, y := 50 + (-3 + 5) * 2 } ∧
     toWorld
       (toScreen { x := 7, y := -3 }
         { offset := { x := 4, y := 5 }, zoom := 2, rotation := 0 } { x := 100, y := 50 })
       { offset := { x := 4, y := 5 }, zoom := 2, rotation := 0 } { x := 100, y := 50 }
      = { x := 7, y := -3 }) := by
  have h1 : MIN_ZOOM ≤ (2:ℝ) := by rw [MIN_ZOOM]; norm_num
  have h2 : (2:ℝ) ≤ MAX_ZOOM := by rw [MAX_ZOOM]; norm_num
  exact ⟨⟨h1, h2⟩,
    viewport_round_trip { x := 7, y := -3 }
      { x := 100, y := 50 } { offset := { x := 4, y := 5 }, zoom := 2, rotation := 0 } h1 h2⟩

/-! ### C10: no division by zero in the integrator -/

/-- Claim C10: for a positive attractor mass, every body either lies strictly inside
the horizon — in which case the step takes the capture branch and performs no
division — or its distance satisfies `dist ≥ horizonRadius = m·RS_FACTOR > 0`,
so both `distSq` and `dist`, the only divisors of the force and direction
computations, are strictly positive; the step is total. -/
theorem step_no_division_by_zero (m ts : ℝ) (obj : CelestialObject) (hm : 0 < m) :
    (distOf obj < m * RS_FACTOR ∧
       stepBody m ts obj
         = { obj with type := CelestialType.GAS_CLOUD, radius := 0, mass := 0 }) ∨
    (m * RS_FACTOR ≤ distOf obj ∧ 0 < distOf obj ∧
       0 < obj.pos.x * obj.pos.x + obj.pos.y * obj.pos.y) := by
  by_cases h : distOf obj < m * RS_FACTOR
  · refine Or.inl ⟨h, ?_⟩
    rw [stepBody]
    simp only [distOf] at h
    rw [if_pos h]
  · have hge : m * RS_FACTOR ≤ distOf obj := not_lt.mp h
    have hrs : 0 < m * RS_FACTOR := by rw [RS_FACTOR]; positivity
    have hd : 0 < distOf obj := lt_of_lt_of_le hrs hge
    refine Or.inr ⟨hge, hd, ?_⟩
    rw [distOf] at hd
    exact Real.sqrt_pos.mp hd

/-- Witness for C10 at `m = 10` and the initial star. -/
theorem step_no_division_by_zero_witness :
    (0:ℝ) < 10 ∧
    ((distOf initialStar < 10 * RS_FACTOR ∧
        stepBody 10 1 initialStar
          = { initialStar with type := CelestialType.GAS_CLOUD, radius := 0, mass := 0 }) ∨
     (10 * RS_FACTOR ≤ distOf initialStar ∧ 0 < distOf initialStar ∧
        0 < initialStar.pos.x * initialStar.pos.x
            + initialStar.pos.y * initialStar.pos.y)) :=
  ⟨by norm_num, step_no_division_by_zero 10 1 initialStar (by norm_num)⟩

end BlackHoleSim

namespace BlackHoleSim

theorem sqrt_1e12 : Real.sqrt 1000000000000 = 1000000 := by
  rw [show (1000000000000 : ℝ) = 1000000 ^ 2 by norm_num,
    Real.sqrt_sq (by norm_num : (0:ℝ) ≤ 1000000)]

theorem lensR_far : lensR { x := 1000000, y := 0 } = 1000000 := by
  simp only [lensR]
  rw [show (1000000:ℝ) * 1000000 + 0 * 0 = 1000000000000 by norm_num, sqrt_1e12]

theorem einsteinRadius_ten : einsteinRadius 10 = 200 := by
  rw [einsteinRadius, show ((4:ℝ) * G * 10) = 40000 by norm_num [G], sqrt_40000]

set_option maxHeartbeats 1000000 in
/-- Claim C8: with lensing enabled, far from the lens the transform degenerates to
the identity: quantitatively, whenever `r = lensR p ≥ 1000·RE` (and `r` is
non-degenerate, mass positive), the primary magnification is within `1e-3` of
`1` and the primary position's distance from the input point is at most
`1e-3` of the input magnitude `r`; the bounds proved are in fact `1e-6`-sized,
so `mag1 → 1` and `primary → p` as `r → ∞`.  The claim's concrete instance
`r = 1e6`, `attractorMass = 10` is the witness below. -/
theorem lensing_far_field (p : Vector2) (mass : ℝ) (hm : 0 < mass)
    (h : ¬ lensR p < 0.001) (hfar : 1000 * einsteinRadius mass ≤ lensR p) :
    |(calculateLensing p mass true).mag - 1| < 1e-3 ∧
    Real.sqrt
        (((calculateLensing p mass true).pos.x - p.x)
            * ((calculateLensing p mass true).pos.x - p.x)
          + ((calculateLensing p mass true).pos.y - p.y)
            * ((calculateLensing p mass true).pos.y - p.y))
      ≤ 1e-3 * lensR p := by
  have h0 : (0:ℝ) ≤ p.x * p.x + p.y * p.y :=
    add_nonneg (mul_self_nonneg _) (mul_self_nonneg _)
  have hre : 0 < einsteinRadius mass := by
    rw [einsteinRadius]
    exact Real.sqrt_pos.mpr (by norm_num [G]; linarith)
  have hr : (0.001:ℝ) ≤ lensR p := not_lt.mp h
  set r := lensR p with hrdef
  set re := einsteinRadius mass with hredef
  have hr0 : (0:ℝ) < r := by linarith
  have hrr : r * r = p.x * p.x + p.y * p.y := Real.mul_self_sqrt h0
  constructor
  · -- magnification
    set u := r / re with hudef
    have hu : (1000:ℝ) ≤ u := (le_div_iff₀ hre).mpr hfar
    have hu0 : (0:ℝ) < u := by linarith
    set root := Real.sqrt (u * u + 4) with hrootdef
    have hroot2 : root * root = u * u + 4 := Real.mul_self_sqrt (by positivity)
    have hroot_ge : u ≤ root := by
      rw [hrootdef]
      calc u = Real.sqrt (u * u) := (Real.sqrt_mul_self hu0.le).symm
      _ ≤ Real.sqrt (u * u + 4) := Real.sqrt_le_sqrt (by linarith)
    have hroot0 : (0:ℝ) < root := lt_of_lt_of_le hu0 hroot_ge
    have hA : lensA p mass = (u * u + 2) / (2 * u * root) := by rw [lensA]
    have hkey : u * root ≤ u * u + 2 := by nlinarith [hroot2, hu0, hroot0]
    have hden : (0:ℝ) < 2 * u * root := by positivity
    have hA_lower : 1/2 ≤ lensA p mass := by
      rw [hA, le_div_iff₀ hden]
      nlinarith
    have hA_upper : lensA p mass ≤ 1/2 + 1e-6 := by
      rw [hA, div_le_iff₀ hden]
      nlinarith [hu, hroot_ge, hu0]
    have hmag : (calculateLensing p mass true).mag
        = min (lensA p mass + 0.5) 8.0 := by
      rw [calculateLensing_main p mass h]
    rw [hmag, min_eq_left (by norm_num; linarith), abs_lt]
    constructor <;> norm_num <;> linarith
  · -- position deflection
    set s := Real.sqrt ((p.x * p.x + p.y * p.y) + 4 * (re * re)) with hsdef
    have hs_ge : r ≤ s := by
      rw [hsdef, hrdef, lensR]
      exact Real.sqrt_le_sqrt (by nlinarith)
    have hsq_expand : (r + 2 * (re * re) / r) ^ 2
        = r * r + 4 * (re * re) + (2 * (re * re) / r) ^ 2 := by
      field_simp
      ring
    have hs_le : s ≤ r + 2 * (re * re) / r := by
      rw [hsdef]
      calc Real.sqrt ((p.x * p.x + p.y * p.y) + 4 * (re * re))
          ≤ Real.sqrt ((r + 2 * (re * re) / r) ^ 2) := by
            apply Real.sqrt_le_sqrt
            rw [hsq_expand, hrr]
            linarith [sq_nonneg (2 * (re * re) / r)]
        _ = r + 2 * (re * re) / r := Real.sqrt_sq (by
            have h1 : 0 ≤ 2 * (re * re) / r :=
              div_nonneg (by nlinarith [mul_self_nonneg re]) hr0.le
            linarith)
    have hre_small : re * re ≤ r * r / 1000000 := by nlinarith
    have htheta : lensTheta1 p mass = (r + s) / 2 := by
      rw [lensTheta1, hsdef, hrdef, hredef]
    have hd_def : lensTheta1 p mass / r - 1 = (s - r) / (2 * r) := by
      rw [htheta]; field_simp; ring
    have hd0 : 0 ≤ lensTheta1 p mass / r - 1 := by
      rw [hd_def]
      exact div_nonneg (by linarith) (by linarith)
    have hd : lensTheta1 p mass / r - 1 ≤ 1e-6 := by
      rw [hd_def, div_le_iff₀ (by linarith : (0:ℝ) < 2 * r)]
      have : 2 * (re * re) / r * r = 2 * (re * re) := by field_simp
      nlinarith [hre_small]
    have hpos : (calculateLensing p mass true).pos
        = { x := p.x * (lensTheta1 p mass / r),
            y := p.y * (lensTheta1 p mass / r) } := by
      rw [calculateLensing_main p mass h]
    rw [hpos]
    set d := lensTheta1 p mass / r - 1 with hddef
    have hx : p.x * (lensTheta1 p mass / r) - p.x = p.x * d := by rw [hddef]; ring
    have hy : p.y * (lensTheta1 p mass / r) - p.y = p.y * d := by rw [hddef]; ring
    simp only []
    rw [hx, hy]
    calc Real.sqrt (p.x * d * (p.x * d) + p.y * d * (p.y * d))
        ≤ Real.sqrt ((1e-3 * r) ^ 2) := by
          apply Real.sqrt_le_sqrt
          have hexp : p.x * d * (p.x * d) + p.y * d * (p.y * d)
              = (p.x * p.x + p.y * p.y) * (d * d) := by ring
          rw [hexp, ← hrr]
          have hdd : d * d ≤ 1e-6 * 1e-6 := mul_le_mul hd hd hd0 (by norm_num)
          nlinarith [hdd, mul_self_nonneg r, hr0]
      _ = 1e-3 * r := Real.sqrt_sq (by linarith)

/-- Witness for C8 at the claim's concrete far-field test:
`p = (1e6, 0)`, `attractorMass = 10` (so `RE = 200`). -/
theorem lensing_far_field_witness :
    ((0:ℝ) < 10 ∧ ¬ lensR { x := 1000000, y := 0 } < 0.001 ∧
      1000 * einsteinRadius 10 ≤ lensR { x := 1000000, y := 0 }) ∧
    (|(calculateLensing { x := 1000000, y := 0 } 10 true).mag - 1| < 1e-3 ∧
     Real.sqrt
        (((calculateLensing { x := 1000000, y := 0 } 10 true).pos.x - 1000000)
            * ((calculateLensing { x := 1000000, y := 0 } 10 true).pos.x - 1000000)
          + ((calculateLensing { x := 1000000, y := 0 } 10 true).pos.y - 0)
            * ((calculateLensing { x := 1000000, y := 0 } 10 true).pos.y - 0))
      ≤ 1e-3 * lensR { x := 1000000, y := 0 }) := by
  have h : ¬ lensR { x := 1000000, y := 0 } < 0.001 := by
    rw [lensR_far]; norm_num
  have hfar : 1000 * einsteinRadius 10 ≤ lensR { x := 1000000, y := 0 } := by
    rw [lensR_far, einsteinRadius_ten]; norm_num
  exact ⟨⟨by norm_num, h, hfar⟩,
    lensing_far_field { x := 1000000, y := 0 } 10 (by norm_num) h hfar⟩

end BlackHoleSim
